import Mathlib

/-!
Shallow embedding of the operator/property/registry core of the Pymixer
video editor (file src/vpy/types.py).

Python conventions modelled explicitly:
  - a function body that falls off its end returns None: embedded return
    type Option String, with none standing for the implicit None;
  - a raised exception is an explicit error value of type PyErr;
  - list indexing follows Python semantics (negative indices wrap, an
    index out of the wrapped range raises IndexError);
  - the numeric bounds of IntProp and FloatProp default to minus/plus
    infinity (min = float(-inf) when the argument is None): embedded as
    Option values, none meaning the comparison against the bound is
    always false;
  - machine floats of FloatProp are idealized as rationals, keeping the
    order-theoretic clamping logic exact.
-/

/-- Exceptions that the embedded code can raise. -/
inductive PyErr where
  | AttributeError
  | IndexError
  | RecursionError
  deriving DecidableEq, Repr

/-- Context from types.py: GUI-owned state handed to every operator.
The render_result and scene payloads play no role in the claims and are
omitted; num_changes, last_report and last_report_time are embedded. -/
structure Context where
  num_changes : Nat
  last_report : Option (String × String)
  last_report_time : Int
  deriving DecidableEq, Repr

/-- The freshly initialized Context of Context.__init__. -/
def Context.init : Context :=
  { num_changes := 0, last_report := none, last_report_time := 0 }

/-- Operator from types.py. Class attributes become fields; the poll and
execute hooks (overridable in subclasses) become function-valued fields
that thread the mutable Context explicitly. poll can raise (the except
branch of the caller), modelled by Except Unit Bool; alpha is the type
of the positional and keyword argument values. -/
structure Operator (α : Type) where
  label : String := ""
  description : String := ""
  idname : String := ""
  min_args : Option Nat := none
  max_args : Option Nat := none
  kwargs_include : List String := []
  kwargs_exclude : List String := []
  poll : Context → List α → List (String × α) → Context × Except Unit Bool :=
    fun c _ _ => (c, .ok true)
  execute : Context → List α → List (String × α) → Context × String :=
    fun c _ _ => (c, "FINISHED")

/-- Operator.report: overwrite last_report with (type, msg) and stamp the
current time (threaded in as the argument now). -/
def Operator.sendReport (ctx : Context) (ty msg : String) (now : Int) : Context :=
  { ctx with last_report := some (ty, msg), last_report_time := now }

/-- The test ran by the first validation branch of Operator.__call__:
min_args is not None and len(args) is less than min_args. -/
def Operator.tooFewArgs (op : Operator α) (args : List α) : Bool :=
  match op.min_args with
  | some m => args.length < m
  | none => false

/-- The test ran by the second validation branch of Operator.__call__:
max_args is not None and len(args) is greater than max_args. -/
def Operator.tooManyArgs (op : Operator α) (args : List α) : Bool :=
  match op.max_args with
  | some m => m < args.length
  | none => false

/-- The kwargs_include loop of Operator.__call__: the first required
keyword that is absent from kwargs, if any. -/
def Operator.firstMissingKwarg (op : Operator α)
    (kwargs : List (String × α)) : Option String :=
  op.kwargs_include.find? fun k => (kwargs.lookup k).isNone

/-- The kwargs_exclude loop of Operator.__call__: the first forbidden
keyword that is present in kwargs, if any. -/
def Operator.firstForbiddenKwarg (op : Operator α)
    (kwargs : List (String × α)) : Option String :=
  op.kwargs_exclude.find? fun k => (kwargs.lookup k).isSome

/-- Operator.__call__ from types.py, line by line. The Option String
result is the Python return value, none being the implicit None of a
body that falls off its end; the Context result is the state of
vpy.context after the call. -/
def Operator.call (op : Operator α) (ctx0 : Context) (args : List α)
    (kwargs : List (String × α)) (now : Int) : Option String × Context :=
  let ctx := { ctx0 with num_changes := ctx0.num_changes + 1 }
  if op.tooFewArgs args then
    (some "CANCELLED",
      Operator.sendReport ctx "ERROR" ("Too few arguments in Operator " ++ op.idname) now)
  else if op.tooManyArgs args then
    (some "CANCELLED",
      Operator.sendReport ctx "ERROR" ("Too many arguments in Operator " ++ op.idname) now)
  else match op.firstMissingKwarg kwargs with
  | some a =>
    (some "CANCELLED",
      Operator.sendReport ctx "ERROR"
        ("Must include kwarg " ++ a ++ " in Operator " ++ op.idname) now)
  | none => match op.firstForbiddenKwarg kwargs with
    | some a =>
      (some "CANCELLED",
        Operator.sendReport ctx "ERROR"
          ("Must exclude kwarg " ++ a ++ " in Operator " ++ op.idname) now)
    | none =>
      let pr := op.poll ctx args kwargs
      let pollOk := match pr.2 with
        | .ok b => b
        | .error _ => false
      if pollOk then
        let er := op.execute pr.1 args kwargs
        if ¬ (er.2 = "FINISHED" ∨ er.2 = "CANCELLED") then
          (some "FINISHED",
            Operator.sendReport er.1 "ERROR"
              ("Invalid return in Operator " ++ op.idname ++ " call.") now)
        else
          (none, er.1)
      else
        (some "CANCELLED",
          Operator.sendReport pr.1 "ERROR"
            ("Poll in Operator " ++ op.idname ++ " failed.") now)

/-- Disjunction of the four validation tests of Operator.__call__. -/
def Operator.validationFails (op : Operator α) (args : List α)
    (kwargs : List (String × α)) : Bool :=
  op.tooFewArgs args || op.tooManyArgs args ||
    (op.firstMissingKwarg kwargs).isSome || (op.firstForbiddenKwarg kwargs).isSome

/-- OpCollection.__getattr__ from types.py: a registered name resolves to
its Operator, an unregistered one raises AttributeError. (Python calls
the dunder only after normal lookup fails; the operators dict is the
whole dynamic namespace.) -/
def OpCollection.getattr (operators : List (String × Operator α))
    (attr : String) : Except PyErr (Operator α) :=
  match operators.lookup attr with
  | some op => .ok op
  | none => .error .AttributeError

/-- OpsModule.__getattr__ from types.py: same shape over collections. -/
def OpsModule.getattr (colls : List (String × List (String × Operator α)))
    (attr : String) : Except PyErr (List (String × Operator α)) :=
  match colls.lookup attr with
  | some c => .ok c
  | none => .error .AttributeError

/-- Scene.__getattr__ and PropCollection.__getattr__ from types.py: both
dunders run hasattr(self, attr) and return getattr(self, attr) when it
holds, else raise AttributeError. Python invokes the dunder only when
normal lookup (here: the assoc list of real attributes) fails, and
hasattr re-enters getattr, so the dunder re-enters itself; the fuel
argument is the interpreter recursion limit, exhaustion raising
RecursionError. hasattr swallows AttributeError only, so RecursionError
propagates. -/
def hasattrGetattr (fuel : Nat) (attrs : List (String × β)) (attr : String) :
    Except PyErr β :=
  match fuel with
  | 0 => .error .RecursionError
  | fuel + 1 =>
    match attrs.lookup attr with
    | some v => .ok v
    | none =>
      match hasattrGetattr fuel attrs attr with
      | .ok v => .ok v
      | .error .AttributeError => .error .AttributeError
      | .error e => .error e

/-- The resolution Scene.__getattr__ performs, at CPython's default
recursion limit. -/
def Scene.resolveAttr (attrs : List (String × β)) (attr : String) :
    Except PyErr β :=
  hasattrGetattr 1000 attrs attr

/-- The resolution PropCollection.__getattr__ performs (the body is
identical to Scene.__getattr__ up to the message of the dead raise). -/
def PropCollection.resolveAttr (attrs : List (String × β)) (attr : String) :
    Except PyErr β :=
  hasattrGetattr 1000 attrs attr

/-- Python list indexing: a negative index counts from the end; an index
outside the wrapped range 0..len-1 raises IndexError. -/
def pyIndex (l : List β) (i : Int) : Except PyErr β :=
  let j := if i < 0 then i + l.length else i
  if h : 0 ≤ j ∧ j < l.length then
    .ok (l.get ⟨j.toNat, by omega⟩)
  else
    .error .IndexError

/-- IntProp from types.py. The min and max arguments default to None,
turned into minus/plus infinity by the constructor; none embeds that
infinity (its comparison always fails). -/
structure IntProp where
  name : String := ""
  description : String := ""
  default : Int := 0
  min : Option Int := none
  max : Option Int := none
  value : Int := 0

/-- IntProp.__init__: stores the default as the current value, with no
clamping against min and max. -/
def IntProp.init (name description : String) (default : Int)
    (mn mx : Option Int) : IntProp :=
  { name := name, description := description, default := default,
    min := mn, max := mx, value := default }

/-- Property.get, inherited by IntProp. -/
def IntProp.get (p : IntProp) : Int :=
  p.value

/-- IntProp.set: clamp below at min, then above at max, store. -/
def IntProp.set (p : IntProp) (v : Int) : IntProp :=
  let v1 := match p.min with
    | some m => if v < m then m else v
    | none => v
  let v2 := match p.max with
    | some m => if m < v1 then m else v1
    | none => v1
  { p with value := v2 }

/-- FloatProp from types.py, machine floats idealized as rationals. -/
structure FloatProp where
  name : String := ""
  description : String := ""
  default : ℚ := 0
  min : Option ℚ := none
  max : Option ℚ := none
  value : ℚ := 0

/-- FloatProp.__init__: stores the default unclamped, like IntProp. -/
def FloatProp.init (name description : String) (default : ℚ)
    (mn mx : Option ℚ) : FloatProp :=
  { name := name, description := description, default := default,
    min := mn, max := mx, value := default }

/-- Property.get, inherited by FloatProp. -/
def FloatProp.get (p : FloatProp) : ℚ :=
  p.value

/-- FloatProp.set: same two sequential clamps as IntProp.set. -/
def FloatProp.set (p : FloatProp) (v : ℚ) : FloatProp :=
  let v1 := match p.min with
    | some m => if v < m then m else v
    | none => v
  let v2 := match p.max with
    | some m => if m < v1 then m else v1
    | none => v1
  { p with value := v2 }

/-- EnumProp from types.py. An item is an (id, label, ...) tuple, typed
Tuple[Tuple[str]]: embedded as its head string plus the rest. idx starts
at 0 and is an unbounded Python int. -/
structure EnumProp where
  name : String := ""
  description : String := ""
  items : List (String × List String) := []
  idx : Int := 0

/-- EnumProp.get: items[self.idx][0], Python indexing without a guard. -/
def EnumProp.get (e : EnumProp) : Except PyErr String :=
  (pyIndex e.items e.idx).map Prod.fst

/-- EnumProp.set: self.idx = min(idx, len(self.items) - 1). -/
def EnumProp.set (e : EnumProp) (i : Int) : EnumProp :=
  { e with idx := min i ((e.items.length : Int) - 1) }

/-- An operator subclass keeping every default of the Operator base
class (default poll returns True, default execute returns FINISHED). -/
def simpleOp : Operator Unit :=
  { idname := "test.simple" }

/-- An operator subclass demanding at least two positional arguments. -/
def strictOp : Operator Unit :=
  { idname := "test.strict", min_args := some 2 }

/-- An operator subclass whose poll raises. -/
def crashOp : Operator Unit :=
  { idname := "test.crash", poll := fun c _ _ => (c, .error ()) }

/-- An operator subclass whose execute returns the invalid status
MAYBE. -/
def badReturnOp : Operator Unit :=
  { idname := "test.bad", execute := fun c _ _ => (c, "MAYBE") }

/-- The three-item enum of the spec's example. -/
def enumABC : EnumProp :=
  { items := [("a", []), ("b", []), ("c", [])] }

/-- An enum with no items at all. -/
def emptyEnum : EnumProp :=
  { items := [] }

/-- An integer property whose default 99 lies above its bounds 0..10. -/
def wildIntProp : IntProp :=
  IntProp.init "wild" "" 99 (some 0) (some 10)

/-- A float property whose default 99 lies above its bounds 0..10. -/
def wildFloatProp : FloatProp :=
  FloatProp.init "wildf" "" 99 (some 0) (some 10)

/-- An integer property bounded to 0..10 with in-range default 5. -/
def pctIntProp : IntProp :=
  IntProp.init "pct" "" 5 (some 0) (some 10)

/-- A float property bounded to 0..10 with in-range default 5. -/
def pctFloatProp : FloatProp :=
  FloatProp.init "pctf" "" 5 (some 0) (some 10)

/-- Claim C1: the claim says an invocation whose poll succeeds and whose
execute returns a valid status returns that status unchanged. The code
violates this: Operator.__call__ only returns in its error branches, so
the valid-status branch falls off the end of the body and the call
returns None, even though execute returned the valid status FINISHED.
This closed statement evaluates the embedded call on the default
operator. -/
theorem call_valid_status_returns_none :
    (simpleOp.execute Context.init [] []).2 = "FINISHED" ∧
    (simpleOp.call Context.init [] [] 0).1 = none := by
  exact ⟨rfl, rfl⟩

/-- Claim C3, counterexample: with the three-item enum and input index
-1 (which satisfies i less-or-equal N-1), EnumProp.set stores -1, so the
claimed lower bound 0 on the stored index is violated. -/
theorem enum_set_lower_bound_cex :
    (-1 : Int) ≤ (enumABC.items.length : Int) - 1 ∧ (enumABC.set (-1)).idx < 0 := by
  decide

/-- Claim C3 as amended: EnumProp.set clamps only the upper bound, so
for inputs i with 0 le i le N-1 the stored index is i (hence within
0..N-1), and for i ge N the stored index is N-1; a negative input is
stored unclamped and can violate the lower bound. -/
theorem enum_set_amended (e : EnumProp) (i : Int) :
    (0 ≤ i → i ≤ (e.items.length : Int) - 1 →
      (e.set i).idx = i ∧ 0 ≤ (e.set i).idx ∧ (e.set i).idx ≤ (e.items.length : Int) - 1) ∧
    ((e.items.length : Int) ≤ i → (e.set i).idx = (e.items.length : Int) - 1) := by
  constructor <;> intros <;> simp only [EnumProp.set] <;> omega

/-- Witness for the amended claim C3 at the three-item enum, with the
in-range input 1 and the overflowing input 5. -/
theorem enum_set_amended_witness :
    ((enumABC.set 1).idx = 1 ∧ 0 ≤ (enumABC.set 1).idx ∧
      (enumABC.set 1).idx ≤ (enumABC.items.length : Int) - 1) ∧
    (enumABC.set 5).idx = (enumABC.items.length : Int) - 1 :=
  ⟨(enum_set_amended enumABC 1).1 (by decide) (by decide),
   (enum_set_amended enumABC 5).2 (by decide)⟩

/-- The observable value of IntProp.set: clamp below at min, then above
at max. -/
theorem intProp_set_value (p : IntProp) (mn mx v : Int)
    (hmin : p.min = some mn) (hmax : p.max = some mx) :
    (p.set v).get = if mx < (if v < mn then mn else v) then mx else (if v < mn then mn else v) := by
  simp [IntProp.set, IntProp.get, hmin, hmax]

/-- The observable value of FloatProp.set: same two clamps over the
rationals. -/
theorem floatProp_set_value (p : FloatProp) (mn mx : ℚ) (v : ℚ)
    (hmin : p.min = some mn) (hmax : p.max = some mx) :
    (p.set v).get = if mx < (if v < mn then mn else v) then mx else (if v < mn then mn else v) := by
  simp [FloatProp.set, FloatProp.get, hmin, hmax]

/-- Claim C6: for integer and float properties with bounds min le max,
set clamps into the bounds, is the identity within them, and maps values
below min to min and above max to max. -/
theorem num_prop_set_clamps (p : IntProp) (mn mx v : Int)
    (hmin : p.min = some mn) (hmax : p.max = some mx) (hb : mn ≤ mx)
    (q : FloatProp) (qn qx w : ℚ)
    (hqmin : q.min = some qn) (hqmax : q.max = some qx) (hqb : qn ≤ qx) :
    (mn ≤ (p.set v).get ∧ (p.set v).get ≤ mx) ∧
    (mn ≤ v → v ≤ mx → (p.set v).get = v) ∧
    (v < mn → (p.set v).get = mn) ∧
    (mx < v → (p.set v).get = mx) ∧
    (qn ≤ (q.set w).get ∧ (q.set w).get ≤ qx) ∧
    (qn ≤ w → w ≤ qx → (q.set w).get = w) ∧
    (w < qn → (q.set w).get = qn) ∧
    (qx < w → (q.set w).get = qx) := by
  rw [intProp_set_value p mn mx v hmin hmax, floatProp_set_value q qn qx w hqmin hqmax]
  refine ⟨?_, ?_, ?_, ?_, ?_, ?_, ?_, ?_⟩ <;> intros <;> split_ifs <;>
    first
      | omega
      | linarith
      | exact ⟨by linarith, by linarith⟩

/-- Witness for claim C6: bounds 0..10, overflowing input 15, on both
the integer and the float property. -/
theorem num_prop_set_clamps_witness :
    ((0 : Int) ≤ (pctIntProp.set 15).get ∧ (pctIntProp.set 15).get ≤ 10) ∧
    ((0 : Int) ≤ 15 → (15 : Int) ≤ 10 → (pctIntProp.set 15).get = 15) ∧
    ((15 : Int) < 0 → (pctIntProp.set 15).get = 0) ∧
    ((10 : Int) < 15 → (pctIntProp.set 15).get = 10) ∧
    ((0 : ℚ) ≤ (pctFloatProp.set 15).get ∧ (pctFloatProp.set 15).get ≤ 10) ∧
    ((0 : ℚ) ≤ 15 → (15 : ℚ) ≤ 10 → (pctFloatProp.set 15).get = 15) ∧
    ((15 : ℚ) < 0 → (pctFloatProp.set 15).get = 0) ∧
    ((10 : ℚ) < 15 → (pctFloatProp.set 15).get = 10) :=
  num_prop_set_clamps pctIntProp 0 10 15 rfl rfl (by decide)
    pctFloatProp 0 10 15 rfl rfl (by norm_num)

/-- Claim C9: the IntProp and FloatProp constructors store the given
default as the current value with no clamping, so an out-of-bounds
default is returned as-is by get and violates the bounds invariant;
the invariant is established by the first set call. -/
theorem num_prop_init_default_unclamped (nm ds : String) (d mn mx : Int)
    (hout : d < mn ∨ mx < d) (hb : mn ≤ mx)
    (dq qn qx : ℚ) (hqout : dq < qn ∨ qx < dq) (hqb : qn ≤ qx) :
    (IntProp.init nm ds d (some mn) (some mx)).get = d ∧
    ¬ (mn ≤ (IntProp.init nm ds d (some mn) (some mx)).get ∧
        (IntProp.init nm ds d (some mn) (some mx)).get ≤ mx) ∧
    (∀ v, mn ≤ ((IntProp.init nm ds d (some mn) (some mx)).set v).get ∧
        ((IntProp.init nm ds d (some mn) (some mx)).set v).get ≤ mx) ∧
    (FloatProp.init nm ds dq (some qn) (some qx)).get = dq ∧
    ¬ (qn ≤ (FloatProp.init nm ds dq (some qn) (some qx)).get ∧
        (FloatProp.init nm ds dq (some qn) (some qx)).get ≤ qx) ∧
    (∀ w, qn ≤ ((FloatProp.init nm ds dq (some qn) (some qx)).set w).get ∧
        ((FloatProp.init nm ds dq (some qn) (some qx)).set w).get ≤ qx) := by
  refine ⟨rfl, ?_, ?_, rfl, ?_, ?_⟩
  · simp only [IntProp.init, IntProp.get]
    omega
  · intro v
    rw [intProp_set_value _ mn mx v rfl rfl]
    split_ifs <;> omega
  · simp only [FloatProp.init, FloatProp.get]
    rcases hqout with h | h
    · intro hc
      linarith [hc.1]
    · intro hc
      linarith [hc.2]
  · intro w
    rw [floatProp_set_value _ qn qx w rfl rfl]
    split_ifs <;> constructor <;> linarith

/-- Witness for claim C9 at the concrete properties whose default 99
lies above the bounds 0..10. -/
theorem num_prop_init_default_unclamped_witness :
    (IntProp.init "wild" "" 99 (some 0) (some 10)).get = 99 ∧
    ¬ ((0 : Int) ≤ (IntProp.init "wild" "" 99 (some 0) (some 10)).get ∧
        (IntProp.init "wild" "" 99 (some 0) (some 10)).get ≤ 10) ∧
    (∀ v, (0 : Int) ≤ ((IntProp.init "wild" "" 99 (some 0) (some 10)).set v).get ∧
        ((IntProp.init "wild" "" 99 (some 0) (some 10)).set v).get ≤ 10) ∧
    (FloatProp.init "wild" "" 99 (some 0) (some 10)).get = 99 ∧
    ¬ ((0 : ℚ) ≤ (FloatProp.init "wild" "" 99 (some 0) (some 10)).get ∧
        (FloatProp.init "wild" "" 99 (some 0) (some 10)).get ≤ 10) ∧
    (∀ w, (0 : ℚ) ≤ ((FloatProp.init "wild" "" 99 (some 0) (some 10)).set w).get ∧
        ((FloatProp.init "wild" "" 99 (some 0) (some 10)).set w).get ≤ 10) :=
  num_prop_init_default_unclamped "wild" "" 99 0 10 (by decide) (by decide)
    99 0 10 (by norm_num) (by norm_num)

/-- pyIndex raises IndexError exactly when the index misses the wrapped
range. -/
theorem pyIndex_outOfRange (l : List β) (i : Int)
    (h : i < -(l.length : Int) ∨ (l.length : Int) ≤ i) :
    pyIndex l i = .error .IndexError := by
  simp only [pyIndex]
  split <;> split
  · rename_i hneg hin
    exact absurd hin (by omega)
  · rfl
  · rename_i hpos hin
    exact absurd hin (by omega)
  · rfl

/-- pyIndex succeeds on every index inside the wrapped range. -/
theorem pyIndex_inRange (l : List β) (i : Int)
    (h1 : -(l.length : Int) ≤ i) (h2 : i < (l.length : Int)) :
    ∃ v, pyIndex l i = .ok v := by
  simp only [pyIndex]
  split <;> split
  · exact ⟨_, rfl⟩
  · rename_i hneg hout
    exact (hout (by omega)).elim
  · exact ⟨_, rfl⟩
  · rename_i hpos hout
    exact (hout (by omega)).elim

/-- Claim C10: EnumProp.get indexes items with no guard, so it raises
IndexError on an empty items sequence or an index below minus the
length, and succeeds for a nonempty enum whose index lies in the range
minus-length to length-minus-one (Python negative indices wrap). -/
theorem enum_get_guard (e : EnumProp) :
    (e.items = [] → e.get = .error .IndexError) ∧
    (e.idx < -(e.items.length : Int) → e.get = .error .IndexError) ∧
    (e.items ≠ [] → -(e.items.length : Int) ≤ e.idx →
      e.idx ≤ (e.items.length : Int) - 1 → ∃ v, e.get = .ok v) := by
  refine ⟨?_, ?_, ?_⟩
  · intro h
    unfold EnumProp.get
    rw [pyIndex_outOfRange _ _ (by rw [h]; simp only [List.length_nil, Nat.cast_zero]; omega)]
    rfl
  · intro h
    unfold EnumProp.get
    rw [pyIndex_outOfRange _ _ (Or.inl h)]
    rfl
  · intro hne h1 h2
    unfold EnumProp.get
    obtain ⟨v, hv⟩ := pyIndex_inRange e.items e.idx h1 (by omega)
    rw [hv]
    exact ⟨v.1, rfl⟩

/-- Witness for claim C10: the empty enum raises, a three-item enum with
index -5 raises, and a three-item enum with index -3 succeeds. -/
theorem enum_get_guard_witness :
    emptyEnum.get = .error .IndexError ∧
    ({ enumABC with idx := -5 } : EnumProp).get = .error .IndexError ∧
    ∃ v, ({ enumABC with idx := -3 } : EnumProp).get = .ok v :=
  ⟨(enum_get_guard emptyEnum).1 rfl,
   (enum_get_guard { enumABC with idx := -5 }).2.1 (by decide),
   (enum_get_guard { enumABC with idx := -3 }).2.2 (by decide) (by decide) (by decide)⟩

/-- Replacing the poll and execute hooks leaves the argument-count test
untouched. -/
theorem update_pe_tooFew (op : Operator α) (p q) (args : List α) :
    ({ op with poll := p, execute := q } : Operator α).tooFewArgs args = op.tooFewArgs args := rfl

/-- Replacing the poll and execute hooks leaves the argument-count test
untouched. -/
theorem update_pe_tooMany (op : Operator α) (p q) (args : List α) :
    ({ op with poll := p, execute := q } : Operator α).tooManyArgs args = op.tooManyArgs args := rfl

/-- Replacing the poll and execute hooks leaves the keyword tests
untouched. -/
theorem update_pe_missing (op : Operator α) (p q) (kwargs : List (String × α)) :
    ({ op with poll := p, execute := q } : Operator α).firstMissingKwarg kwargs =
      op.firstMissingKwarg kwargs := rfl

/-- Replacing the poll and execute hooks leaves the keyword tests
untouched. -/
theorem update_pe_forbidden (op : Operator α) (p q) (kwargs : List (String × α)) :
    ({ op with poll := p, execute := q } : Operator α).firstForbiddenKwarg kwargs =
      op.firstForbiddenKwarg kwargs := rfl

/-- Replacing the poll and execute hooks leaves idname untouched. -/
theorem update_pe_idname (op : Operator α) (p q) :
    ({ op with poll := p, execute := q } : Operator α).idname = op.idname := rfl

/-- Replacing only the execute hook leaves the argument-count test
untouched. -/
theorem update_e_tooFew (op : Operator α) (q) (args : List α) :
    ({ op with execute := q } : Operator α).tooFewArgs args = op.tooFewArgs args := rfl

/-- Replacing only the execute hook leaves the argument-count test
untouched. -/
theorem update_e_tooMany (op : Operator α) (q) (args : List α) :
    ({ op with execute := q } : Operator α).tooManyArgs args = op.tooManyArgs args := rfl

/-- Replacing only the execute hook leaves the keyword tests
untouched. -/
theorem update_e_missing (op : Operator α) (q) (kwargs : List (String × α)) :
    ({ op with execute := q } : Operator α).firstMissingKwarg kwargs =
      op.firstMissingKwarg kwargs := rfl

/-- Replacing only the execute hook leaves the keyword tests
untouched. -/
theorem update_e_forbidden (op : Operator α) (q) (kwargs : List (String × α)) :
    ({ op with execute := q } : Operator α).firstForbiddenKwarg kwargs =
      op.firstForbiddenKwarg kwargs := rfl

/-- Replacing only the execute hook leaves idname and poll untouched. -/
theorem update_e_idname (op : Operator α) (q) :
    ({ op with execute := q } : Operator α).idname = op.idname := rfl

/-- Replacing only the execute hook leaves poll untouched. -/
theorem update_e_poll (op : Operator α) (q) :
    ({ op with execute := q } : Operator α).poll = op.poll := rfl

/-- Replacing only the poll hook leaves the argument-count test
untouched. -/
theorem update_p_tooFew (op : Operator α) (p) (args : List α) :
    ({ op with poll := p } : Operator α).tooFewArgs args = op.tooFewArgs args := rfl

/-- Replacing only the poll hook leaves the argument-count test
untouched. -/
theorem update_p_tooMany (op : Operator α) (p) (args : List α) :
    ({ op with poll := p } : Operator α).tooManyArgs args = op.tooManyArgs args := rfl

/-- Replacing only the poll hook leaves the keyword tests untouched. -/
theorem update_p_missing (op : Operator α) (p) (kwargs : List (String × α)) :
    ({ op with poll := p } : Operator α).firstMissingKwarg kwargs =
      op.firstMissingKwarg kwargs := rfl

/-- Replacing only the poll hook leaves the keyword tests untouched. -/
theorem update_p_forbidden (op : Operator α) (p) (kwargs : List (String × α)) :
    ({ op with poll := p } : Operator α).firstForbiddenKwarg kwargs =
      op.firstForbiddenKwarg kwargs := rfl

/-- Replacing only the poll hook leaves idname and execute untouched. -/
theorem update_p_idname (op : Operator α) (p) :
    ({ op with poll := p } : Operator α).idname = op.idname := rfl

/-- Replacing only the poll hook leaves execute untouched. -/
theorem update_p_execute (op : Operator α) (p) :
    ({ op with poll := p } : Operator α).execute = op.execute := rfl

/-- The four validation tests of a passing invocation, extracted. -/
theorem validation_ok_parts (op : Operator α) (args : List α)
    (kwargs : List (String × α)) (h : op.validationFails args kwargs = false) :
    op.tooFewArgs args = false ∧ op.tooManyArgs args = false ∧
    op.firstMissingKwarg kwargs = none ∧ op.firstForbiddenKwarg kwargs = none := by
  simp only [Operator.validationFails, Bool.or_eq_false_iff] at h
  obtain ⟨⟨⟨h1, h2⟩, h3⟩, h4⟩ := h
  refine ⟨h1, h2, ?_, ?_⟩
  · exact Option.not_isSome_iff_eq_none.mp (by simp [h3])
  · exact Option.not_isSome_iff_eq_none.mp (by simp [h4])

/-- Claim C2: an Operator invocation increments num_changes exactly
once, in every branch, provided the operator's own poll and execute
hooks leave the counter alone (a nested invocation inside execute counts
as its own invocation). -/
theorem call_increments_num_changes (op : Operator α) (ctx : Context)
    (args : List α) (kwargs : List (String × α)) (now : Int)
    (hpoll : ∀ c a k, ((op.poll c a k).1).num_changes = c.num_changes)
    (hexec : ∀ c a k, ((op.execute c a k).1).num_changes = c.num_changes) :
    ((op.call ctx args kwargs now).2).num_changes = ctx.num_changes + 1 := by
  simp only [Operator.call]
  split
  · simp [Operator.sendReport]
  · split
    · simp [Operator.sendReport]
    · split
      · simp [Operator.sendReport]
      · split
        · simp [Operator.sendReport]
        · split
          · split
            · simp [Operator.sendReport, hexec, hpoll]
            · simp [hexec, hpoll]
          · simp [Operator.sendReport, hpoll]

/-- Witness for claim C2: the default operator on a fresh context. -/
theorem call_increments_num_changes_witness :
    ((simpleOp.call Context.init [] [] 0).2).num_changes = Context.init.num_changes + 1 :=
  call_increments_num_changes simpleOp Context.init [] [] 0
    (fun _ _ _ => rfl) (fun _ _ _ => rfl)

/-- Claim C5: when validation passes and poll returns True, an execute
status outside FINISHED and CANCELLED makes the invocation report ERROR
and return FINISHED, both at once. -/
theorem call_invalid_return_reports_and_finishes (op : Operator α) (ctx : Context)
    (args : List α) (kwargs : List (String × α)) (now : Int)
    (hval : op.validationFails args kwargs = false)
    (hpoll : (op.poll { ctx with num_changes := ctx.num_changes + 1 } args kwargs).2 =
      Except.ok true)
    (hex1 : (op.execute (op.poll { ctx with num_changes := ctx.num_changes + 1 }
      args kwargs).1 args kwargs).2 ≠ "FINISHED")
    (hex2 : (op.execute (op.poll { ctx with num_changes := ctx.num_changes + 1 }
      args kwargs).1 args kwargs).2 ≠ "CANCELLED") :
    (op.call ctx args kwargs now).1 = some "FINISHED" ∧
    (op.call ctx args kwargs now).2.last_report =
      some ("ERROR", "Invalid return in Operator " ++ op.idname ++ " call.") := by
  obtain ⟨h1, h2, h3, h4⟩ := validation_ok_parts op args kwargs hval
  constructor <;>
    simp [Operator.call, Operator.sendReport, h1, h2, h3, h4, hpoll, hex1, hex2]

/-- Witness for claim C5: an operator whose execute returns MAYBE. -/
theorem call_invalid_return_witness :
    (badReturnOp.call Context.init [] [] 0).1 = some "FINISHED" ∧
    (badReturnOp.call Context.init [] [] 0).2.last_report =
      some ("ERROR", "Invalid return in Operator " ++ badReturnOp.idname ++ " call.") :=
  call_invalid_return_reports_and_finishes badReturnOp Context.init [] [] 0
    rfl rfl (by decide) (by decide)

set_option maxHeartbeats 1600000 in
/-- Claim C7: an invocation that fails any validation test (too few or
too many positional arguments, missing required keyword, present
forbidden keyword) reports ERROR, returns CANCELLED, and never calls
poll or execute: the outcome is unchanged under any replacement of the
two hooks. -/
theorem call_validation_failure_cancels (op : Operator α) (ctx : Context)
    (args : List α) (kwargs : List (String × α)) (now : Int)
    (h : op.validationFails args kwargs = true) :
    (op.call ctx args kwargs now).1 = some "CANCELLED" ∧
    (∃ m, (op.call ctx args kwargs now).2.last_report = some ("ERROR", m)) ∧
    ∀ p q, ({ op with poll := p, execute := q } : Operator α).call ctx args kwargs now =
      op.call ctx args kwargs now := by
  cases h1 : op.tooFewArgs args <;> cases h2 : op.tooManyArgs args <;>
    cases h3 : op.firstMissingKwarg kwargs <;> cases h4 : op.firstForbiddenKwarg kwargs <;>
    first
      | exact ⟨by simp [Operator.call, h1, h2, h3, h4],
          ⟨_, by simp [Operator.call, Operator.sendReport, h1, h2, h3, h4] <;> rfl⟩,
          fun p q => by
            simp [Operator.call, update_pe_tooFew, update_pe_tooMany, update_pe_missing,
              update_pe_forbidden, update_pe_idname, h1, h2, h3, h4]⟩
      | simp_all [Operator.validationFails]

/-- Witness for claim C7: the operator demanding two positional
arguments, invoked with none. -/
theorem call_validation_failure_witness :
    (strictOp.call Context.init [] [] 0).1 = some "CANCELLED" ∧
    (∃ m, (strictOp.call Context.init [] [] 0).2.last_report = some ("ERROR", m)) ∧
    ∀ p q, ({ strictOp with poll := p, execute := q } : Operator Unit).call Context.init [] [] 0 =
      strictOp.call Context.init [] [] 0 :=
  call_validation_failure_cancels strictOp Context.init [] [] 0 rfl

/-- Claim C8: when validation passes and poll raises or returns False,
the invocation reports the poll-failure ERROR and returns CANCELLED,
execute is never called (the outcome ignores any replacement of the
execute hook), and a raising poll behaves exactly like one returning
False. -/
theorem call_poll_failure_cancels (op : Operator α) (ctx : Context)
    (args : List α) (kwargs : List (String × α)) (now : Int)
    (hval : op.validationFails args kwargs = false)
    (hpoll : (op.poll { ctx with num_changes := ctx.num_changes + 1 } args kwargs).2 =
        Except.error () ∨
      (op.poll { ctx with num_changes := ctx.num_changes + 1 } args kwargs).2 =
        Except.ok false) :
    (op.call ctx args kwargs now).1 = some "CANCELLED" ∧
    (op.call ctx args kwargs now).2.last_report =
      some ("ERROR", "Poll in Operator " ++ op.idname ++ " failed.") ∧
    (∀ q, ({ op with execute := q } : Operator α).call ctx args kwargs now =
      op.call ctx args kwargs now) ∧
    ({ op with poll := fun c a k => ((op.poll c a k).1, Except.ok false) } : Operator α).call
        ctx args kwargs now = op.call ctx args kwargs now := by
  obtain ⟨h1, h2, h3, h4⟩ := validation_ok_parts op args kwargs hval
  refine ⟨?_, ?_, ?_, ?_⟩
  · rcases hpoll with hp | hp <;>
      simp [Operator.call, Operator.sendReport, h1, h2, h3, h4, hp]
  · rcases hpoll with hp | hp <;>
      simp [Operator.call, Operator.sendReport, h1, h2, h3, h4, hp]
  · intro q
    rcases hpoll with hp | hp <;>
      simp [Operator.call, Operator.sendReport, update_e_tooFew, update_e_tooMany,
        update_e_missing, update_e_forbidden, update_e_idname, update_e_poll,
        h1, h2, h3, h4, hp]
  · rcases hpoll with hp | hp <;>
      simp [Operator.call, Operator.sendReport, update_p_tooFew, update_p_tooMany,
        update_p_missing, update_p_forbidden, update_p_idname, update_p_execute,
        h1, h2, h3, h4, hp]

/-- Witness for claim C8: the operator whose poll raises, invoked on a
fresh context. -/
theorem call_poll_failure_witness :
    (crashOp.call Context.init [] [] 0).1 = some "CANCELLED" ∧
    (crashOp.call Context.init [] [] 0).2.last_report =
      some ("ERROR", "Poll in Operator " ++ crashOp.idname ++ " failed.") ∧
    (∀ q, ({ crashOp with execute := q } : Operator Unit).call Context.init [] [] 0 =
      crashOp.call Context.init [] [] 0) ∧
    ({ crashOp with poll := fun c a k => ((crashOp.poll c a k).1, Except.ok false) } :
        Operator Unit).call Context.init [] [] 0 = crashOp.call Context.init [] [] 0 :=
  call_poll_failure_cancels crashOp Context.init [] [] 0 rfl (Or.inl rfl)

/-- On a name with no real attribute, the hasattr-based dunder body
re-enters itself until the recursion limit, whatever the limit is. -/
theorem hasattrGetattr_absent (fuel : Nat) (attrs : List (String × β))
    (attr : String) (h : attrs.lookup attr = none) :
    hasattrGetattr fuel attrs attr = .error .RecursionError := by
  induction fuel with
  | zero => rfl
  | succ n ih => simp [hasattrGetattr, h, ih]

/-- Claim C4: resolving an unregistered name. OpCollection and OpsModule
raise AttributeError as the claim says, but Scene and PropCollection
re-enter their own dunder through hasattr and die with RecursionError
instead of the distinguishable NotFound outcome: the claim fails on
those two containers. -/
theorem absent_name_resolution (attrs : List (String × β)) (attr : String)
    (h : attrs.lookup attr = none) :
    Scene.resolveAttr attrs attr = .error .RecursionError ∧
    PropCollection.resolveAttr attrs attr = .error .RecursionError ∧
    Scene.resolveAttr attrs attr ≠ .error .AttributeError ∧
    (∀ ops : List (String × Operator Unit), ops.lookup attr = none →
      OpCollection.getattr ops attr = .error .AttributeError) ∧
    (∀ cs : List (String × List (String × Operator Unit)), cs.lookup attr = none →
      OpsModule.getattr cs attr = .error .AttributeError) := by
  have hs := hasattrGetattr_absent 1000 attrs attr h
  refine ⟨hs, hs, ?_, ?_, ?_⟩
  · simp [Scene.resolveAttr, hs]
  · intro ops hops
    simp [OpCollection.getattr, hops]
  · intro cs hcs
    simp [OpsModule.getattr, hcs]

/-- Witness for claim C4 at the failing input: a Scene with no attached
collections and the unregistered name foo. -/
theorem absent_name_resolution_witness :
    Scene.resolveAttr ([] : List (String × Unit)) "foo" = .error .RecursionError ∧
    PropCollection.resolveAttr ([] : List (String × Unit)) "foo" = .error .RecursionError ∧
    Scene.resolveAttr ([] : List (String × Unit)) "foo" ≠ .error .AttributeError ∧
    (∀ ops : List (String × Operator Unit), ops.lookup "foo" = none →
      OpCollection.getattr ops "foo" = .error .AttributeError) ∧
    (∀ cs : List (String × List (String × Operator Unit)), cs.lookup "foo" = none →
      OpsModule.getattr cs "foo" = .error .AttributeError) :=
  absent_name_resolution ([] : List (String × Unit)) "foo" rfl
